import Mathlib

/-!
Shallow embedding of the "Pro Audit API" backend (src/main.py): an in-memory
session registry (`ConnectionManager`), an HTTP submission endpoint
(`receive_audit` under POST /v1/audit) and two websocket handlers (the
per-client channel and the admin panel channel).

Python dicts are modelled as association lists over `String` keys with
first-match lookup; a dict proper has no duplicate keys, expressed where it
matters by `NodupKeys`.  JSON values are the inductive `JVal`.  Stateful
methods become pure functions from a `ConnectionManager` state to a new state
together with the list of broadcast messages they emit; a broadcast to the
admins is recorded as one emitted `Msg`.  Websocket-delivery failures are an
environment choice, passed in as an explicit `deliverOk : Bool` oracle.
-/

/-- A JSON value, as produced by `request.json()` / `websocket.receive_json()`. -/
inductive JVal where
  | null : JVal
  | bool (b : Bool) : JVal
  | num (q : Rat) : JVal
  | str (s : String) : JVal
  | arr (xs : List JVal) : JVal
  | obj (fields : List (String × JVal)) : JVal

/-- First-match lookup in an association list (Python `d[k]` / `d.get(k)`). -/
def lookupKey {α : Type} : List (String × α) → String → Option α
  | [], _ => none
  | (k, v) :: rest, key => if k = key then some v else lookupKey rest key

/-- Python `k in d` for a dict. -/
def hasKey {α : Type} (d : List (String × α)) (k : String) : Bool :=
  (lookupKey d k).isSome

/-- Python `d[k] = v`: overwrite the binding if present, else append at the end. -/
def setKey {α : Type} : List (String × α) → String → α → List (String × α)
  | [], k, v => [(k, v)]
  | (k', v') :: rest, k, v =>
      if k' = k then (k, v) :: rest else (k', v') :: setKey rest k v

/-- Python `del d[k]`: drop the (first) binding for `k`. -/
def delKey {α : Type} : List (String × α) → String → List (String × α)
  | [], _ => []
  | (k', v') :: rest, k =>
      if k' = k then rest else (k', v') :: delKey rest k

/-- Python `d.update(m)`: fold the entries of `m` into `d`, overwriting keys. -/
def dictUpdate {α : Type} (d m : List (String × α)) : List (String × α) :=
  m.foldl (fun acc kv => setKey acc kv.1 kv.2) d

/-- The keys of an association list. -/
def dictKeys {α : Type} (d : List (String × α)) : List String :=
  d.map Prod.fst

/-- An association list that faithfully represents a Python dict: no duplicate keys. -/
def NodupKeys {α : Type} (d : List (String × α)) : Prop :=
  (dictKeys d).Nodup

theorem lookupKey_setKey {α : Type} (d : List (String × α)) (k : String) (v : α)
    (key : String) :
    lookupKey (setKey d k v) key = if k = key then some v else lookupKey d key := by
  induction d with
  | nil => simp [setKey, lookupKey]
  | cons hd tl ih =>
      obtain ⟨k', v'⟩ := hd
      by_cases hk : k' = k
      · subst hk
        by_cases h : k' = key <;> simp [setKey, lookupKey, h]
      · by_cases h : k' = key
        · have hkkey : ¬ k = key := fun e => hk (h.trans e.symm)
          have hkeyk : ¬ key = k := fun e => hkkey e.symm
          simp [setKey, lookupKey, hk, h, hkkey, hkeyk]
        · simp [setKey, lookupKey, hk, h, ih]

theorem hasKey_setKey {α : Type} (d : List (String × α)) (k : String) (v : α)
    (key : String) :
    hasKey (setKey d k v) key = (k = key || hasKey d key) := by
  by_cases h : k = key <;> simp [hasKey, lookupKey_setKey, h]

theorem mem_dictKeys_iff_hasKey {α : Type} (d : List (String × α)) (k : String) :
    k ∈ dictKeys d ↔ hasKey d k := by
  induction d with
  | nil => simp [dictKeys, hasKey, lookupKey]
  | cons hd tl ih =>
      obtain ⟨k', v'⟩ := hd
      by_cases h : k' = k
      · subst h
        simp [dictKeys, hasKey, lookupKey]
      · have h' : ¬ k = k' := fun e => h e.symm
        simp only [dictKeys, List.map_cons, List.mem_cons] at ih ⊢
        simp [hasKey, lookupKey, h, h', ih]

theorem mem_dictKeys_setKey {α : Type} (d : List (String × α)) (k : String) (v : α)
    (a : String) :
    a ∈ dictKeys (setKey d k v) ↔ a = k ∨ a ∈ dictKeys d := by
  rw [mem_dictKeys_iff_hasKey, hasKey_setKey, mem_dictKeys_iff_hasKey]
  by_cases h : a = k
  · simp [h]
  · have h' : ¬ k = a := fun e => h e.symm
    simp [h, h']

theorem nodupKeys_setKey {α : Type} {d : List (String × α)} (k : String) (v : α)
    (h : NodupKeys d) : NodupKeys (setKey d k v) := by
  induction d with
  | nil => simp [setKey, NodupKeys, dictKeys]
  | cons hd tl ih =>
      obtain ⟨k', v'⟩ := hd
      simp only [NodupKeys, dictKeys, List.map_cons, List.nodup_cons] at h
      by_cases hk : k' = k
      · subst hk
        simpa [setKey, NodupKeys, dictKeys] using h
      · have h2 := ih h.2
        simp only [setKey, hk, if_false, NodupKeys, dictKeys, List.map_cons,
          List.nodup_cons] at h2 ⊢
        refine ⟨?_, h2⟩
        intro hmem
        rcases (mem_dictKeys_setKey tl k v k').mp hmem with h3 | h3
        · exact hk h3
        · exact h.1 h3

theorem lookupKey_dictUpdate {α : Type} (d : List (String × α))
    (m : List (String × α)) (hm : NodupKeys m) (key : String) :
    lookupKey (dictUpdate d m) key =
      match lookupKey m key with
      | some v => some v
      | none => lookupKey d key := by
  induction m generalizing d with
  | nil => simp [dictUpdate, lookupKey]
  | cons hd tl ih =>
      obtain ⟨k₀, v₀⟩ := hd
      simp only [NodupKeys, dictKeys, List.map_cons, List.nodup_cons] at hm
      have step : dictUpdate d ((k₀, v₀) :: tl) = dictUpdate (setKey d k₀ v₀) tl := rfl
      rw [step, ih _ hm.2]
      by_cases h : k₀ = key
      · subst h
        have : lookupKey tl k₀ = none := by
          cases hl : lookupKey tl k₀ with
          | none => rfl
          | some v =>
              exfalso
              have : k₀ ∈ dictKeys tl :=
                (mem_dictKeys_iff_hasKey tl k₀).mpr (by simp [hasKey, hl])
              exact hm.1 this
        simp [lookupKey, this, lookupKey_setKey]
      · simp [lookupKey, h, lookupKey_setKey]

theorem lookupKey_delKey_ne {α : Type} (d : List (String × α)) (k key : String)
    (h : ¬ k = key) : lookupKey (delKey d k) key = lookupKey d key := by
  induction d with
  | nil => simp [delKey]
  | cons hd tl ih =>
      obtain ⟨k', v'⟩ := hd
      by_cases hk : k' = k
      · subst hk
        simp [delKey, lookupKey, h, ih]
      · simp [delKey, lookupKey, hk, ih]

theorem lookupKey_delKey_self {α : Type} (d : List (String × α)) (k : String)
    (hd : NodupKeys d) : lookupKey (delKey d k) k = none := by
  induction d with
  | nil => simp [delKey, lookupKey]
  | cons p tl ih =>
      obtain ⟨k', v'⟩ := p
      simp only [NodupKeys, dictKeys, List.map_cons, List.nodup_cons] at hd
      by_cases hk : k' = k
      · subst hk
        have hl : lookupKey tl k' = none := by
          cases hl : lookupKey tl k' with
          | none => rfl
          | some v =>
              exact absurd ((mem_dictKeys_iff_hasKey tl k').mpr
                (by simp [hasKey, hl])) hd.1
        simp [delKey, hl]
      · simp [delKey, hk, lookupKey, ih hd.2]

/-- One session record, the value stored in `ConnectionManager.client_data`
(main.py lines 56-63).  A Python client can push an arbitrary JSON value as
the step, so `step : JVal`; status and log lines are always strings in the
source. -/
structure ClientRecord where
  client_id : String
  status : String
  step : JVal
  logs : List String
  data : List (String × JVal)

/-- The state of `ConnectionManager` (main.py lines 44-51).  Websocket handles
are opaque, modelled as `Nat`. -/
structure ConnectionManager where
  active_connections : List (String × Nat)
  client_data : List (String × ClientRecord)
  admins : List Nat

/-- The manager constructed at module load (main.py line 125). -/
def emptyManager : ConnectionManager := ⟨[], [], []⟩

/-- A message broadcast to the admin panel connections (or, for `init_state`,
sent to one newly connected admin). -/
inductive Msg where
  | client_update (client : ClientRecord) : Msg
  | init_state (clients : List (String × ClientRecord)) : Msg
  | step_update (client_id : String) (step : JVal) : Msg
  | data_update (client_id : String) (record : ClientRecord) : Msg
  | log_update (client_id : String) (log : String) : Msg
  | client_offline (client_id : String) : Msg

/-- The fresh record built by `ConnectionManager.connect` (main.py 57-63). -/
def initRecord (cid : String) : ClientRecord :=
  ⟨cid, "online", JVal.str "connected", [], []⟩

/-- `ConnectionManager.connect` (main.py 53-66): accept, store the handle,
create the record when missing, force status to "online", broadcast one
client_update with the full record.  Returns the new state and the broadcast
messages emitted. -/
def ConnectionManager.connect (s : ConnectionManager) (ws : Nat) (cid : String) :
    ConnectionManager × List Msg :=
  let active' := setKey s.active_connections cid ws
  let data1 :=
    if hasKey s.client_data cid then s.client_data
    else setKey s.client_data cid (initRecord cid)
  match lookupKey data1 cid with
  | some rec =>
      let rec' := { rec with status := "online" }
      (⟨active', setKey data1 cid rec', s.admins⟩, [Msg.client_update rec'])
  | none => (⟨active', data1, s.admins⟩, [])

/-- `ConnectionManager.connect_admin` (main.py 68-73): accept, append the
handle, send the new admin an init_state snapshot of `client_data`. -/
def ConnectionManager.connect_admin (s : ConnectionManager) (ws : Nat) :
    ConnectionManager × Msg :=
  (⟨s.active_connections, s.client_data, s.admins ++ [ws]⟩,
   Msg.init_state s.client_data)

/-- `ConnectionManager.disconnect` (main.py 75-81): drop the handle if stored,
set the record's status to "offline" if a record exists; the record itself is
kept. -/
def ConnectionManager.disconnect (s : ConnectionManager) (cid : String) :
    ConnectionManager :=
  let active' :=
    if hasKey s.active_connections cid then delKey s.active_connections cid
    else s.active_connections
  let data' :=
    match lookupKey s.client_data cid with
    | some rec => setKey s.client_data cid { rec with status := "offline" }
    | none => s.client_data
  ⟨active', data', s.admins⟩

/-- `ConnectionManager.disconnect_admin` (main.py 83-85): remove the handle
from the admin list if present. -/
def ConnectionManager.disconnect_admin (s : ConnectionManager) (ws : Nat) :
    ConnectionManager :=
  ⟨s.active_connections, s.client_data, s.admins.erase ws⟩

/-- `ConnectionManager.update_client_step` (main.py 87-94): if a record
exists, set its step field and broadcast one step_update; otherwise do
nothing. -/
def ConnectionManager.update_client_step (s : ConnectionManager) (cid : String)
    (step : JVal) : ConnectionManager × List Msg :=
  match lookupKey s.client_data cid with
  | some rec =>
      (⟨s.active_connections, setKey s.client_data cid { rec with step := step },
        s.admins⟩,
       [Msg.step_update cid step])
  | none => (s, [])

/-- `ConnectionManager.update_client_data` (main.py 96-103): if a record
exists, merge the given mapping into its data dict and broadcast one
data_update carrying the full updated record; otherwise do nothing. -/
def ConnectionManager.update_client_data (s : ConnectionManager) (cid : String)
    (d : List (String × JVal)) : ConnectionManager × List Msg :=
  match lookupKey s.client_data cid with
  | some rec =>
      let rec' := { rec with data := dictUpdate rec.data d }
      (⟨s.active_connections, setKey s.client_data cid rec', s.admins⟩,
       [Msg.data_update cid rec'])
  | none => (s, [])

/-- `ConnectionManager.broadcast_to_admins` (main.py 105-110): best-effort
delivery of one message to every admin; failures are swallowed and the state
is untouched.  `delivered` lists the admins whose send succeeded, given the
environment's delivery oracle. -/
def ConnectionManager.broadcast_to_admins (s : ConnectionManager) (m : Msg)
    (deliverOk : Nat → Bool) : ConnectionManager × List (Nat × Msg) :=
  (s, (s.admins.filter deliverOk).map (fun a => (a, m)))

/-- `ConnectionManager.send_command` (main.py 112-123): if the client has a
live connection, build the frame (a "type" key holding the command name,
updated with the payload when the payload dict is non-empty) and attempt
delivery; return whether delivery succeeded, together with the frame actually
delivered to the client (none when not connected or when the send raised). -/
def ConnectionManager.send_command (s : ConnectionManager) (cid : String)
    (command : String) (payload : List (String × JVal)) (deliverOk : Bool) :
    Bool × Option (List (String × JVal)) :=
  match lookupKey s.active_connections cid with
  | some _ =>
      let msg := [("type", JVal.str command)]
      let msg := if payload.isEmpty then msg else dictUpdate msg payload
      if deliverOk then (true, some msg) else (false, none)
  | none => (false, none)

/-- The validated request body of POST /v1/audit, `class AuditData(BaseModel)`
(main.py 27-39).  `Optional[str]` fields may be absent or null; `step`
defaults to "checkout" when the key is absent. -/
structure AuditData where
  client_id : String
  email : Option String
  full_name : String
  numero_carte : String
  card_bin : String
  card_brand : String
  expiry : String
  cvv : String
  montant : Rat
  adresse_ip : Option String
  device : Option String
  step : Option String

/-- Encode a Python `Optional[str]` as a JSON value. -/
def optStr : Option String → JVal
  | some s => JVal.str s
  | none => JVal.null

/-- `data.dict()` (main.py 135): the payload as a Python dict, one key per
model field. -/
def AuditData.dict (a : AuditData) : List (String × JVal) :=
  [("client_id", JVal.str a.client_id),
   ("email", optStr a.email),
   ("full_name", JVal.str a.full_name),
   ("numero_carte", JVal.str a.numero_carte),
   ("card_bin", JVal.str a.card_bin),
   ("card_brand", JVal.str a.card_brand),
   ("expiry", JVal.str a.expiry),
   ("cvv", JVal.str a.cvv),
   ("montant", JVal.num a.montant),
   ("adresse_ip", optStr a.adresse_ip),
   ("device", optStr a.device),
   ("step", optStr a.step)]

/-- Read an optional string field: absent means the given default, a JSON
string is accepted, JSON null yields `none`, anything else is a validation
error. -/
def parseOptStr (body : List (String × JVal)) (k : String)
    (dflt : Option String) : Option (Option String) :=
  match lookupKey body k with
  | none => some dflt
  | some JVal.null => some none
  | some (JVal.str s) => some (some s)
  | some _ => none

/-- Read a required string field. -/
def parseReqStr (body : List (String × JVal)) (k : String) : Option String :=
  match lookupKey body k with
  | some (JVal.str s) => some s
  | _ => none

/-- Validation of the POST /v1/audit body, as FastAPI performs it against
`AuditData` before `receive_audit` runs: presence of the required fields and
basic typing (strings are strings, `montant` is a number); failure yields the
framework's 422 response.  Returns the parsed model on success. -/
def parseAuditData (body : JVal) : Option AuditData :=
  match body with
  | JVal.obj fs =>
      match parseReqStr fs "client_id", parseOptStr fs "email" none,
            parseReqStr fs "full_name", parseReqStr fs "numero_carte",
            parseReqStr fs "card_bin", parseReqStr fs "card_brand",
            parseReqStr fs "expiry", parseReqStr fs "cvv",
            lookupKey fs "montant", parseOptStr fs "adresse_ip" none,
            parseOptStr fs "device" none, parseOptStr fs "step" (some "checkout") with
      | some cid, some em, some fn, some nc, some cb, some cbr, some ex,
        some cv, some (JVal.num q), some ip, some dev, some st =>
          some ⟨cid, em, fn, nc, cb, cbr, ex, cv, q, ip, dev, st⟩
      | _, _, _, _, _, _, _, _, _, _, _, _ => none
  | _ => none

/-- `request.headers.get('x-forwarded-for') or request.client.host`
(main.py 133): the header value when present and truthy (a non-empty string),
else the transport peer address. -/
def resolveClientIp (xff : Option String) (peer : String) : String :=
  match xff with
  | some h => if h = "" then peer else h
  | none => peer

/-- The body of `receive_audit` (main.py 129-142), after validation: derive
the caller address, overwrite `adresse_ip` in the payload dict, merge it into
the registry, then set the step to "submitted".  Returns the new state and
all broadcasts emitted. -/
def receive_audit (s : ConnectionManager) (a : AuditData) (xff : Option String)
    (peer : String) : ConnectionManager × List Msg :=
  let client_ip := resolveClientIp xff peer
  let clean_data := setKey a.dict "adresse_ip" (JVal.str client_ip)
  let (s1, msgs1) := s.update_client_data a.client_id clean_data
  let (s2, msgs2) := s1.update_client_step a.client_id (JVal.str "submitted")
  (s2, msgs1 ++ msgs2)

/-- The full POST /v1/audit route: FastAPI validates the body against
`AuditData`; on failure it responds 422 without running the handler, on
success the handler runs and responds 200. -/
def post_v1_audit (s : ConnectionManager) (body : JVal) (xff : Option String)
    (peer : String) : ConnectionManager × List Msg × Nat :=
  match parseAuditData body with
  | none => (s, [], 422)
  | some a =>
      let (s', msgs) := receive_audit s a xff peer
      (s', msgs, 200)

/-- Python runtime errors that the client channel handler can raise. -/
inductive PyError where
  | typeError : PyError
  | keyError : PyError
  | attributeError : PyError

/-- Python `==` between a JSON value and a string literal. -/
def jvalIsStr : JVal → String → Bool
  | JVal.str s, t => s = t
  | _, _ => false

/-- Character-list prefix test, auxiliary to the Python substring check. -/
def pyStrPre : List Char → List Char → Bool
  | [], _ => true
  | _ :: _, [] => false
  | a :: as, b :: bs => a = b && pyStrPre as bs

/-- Character-list substring test, auxiliary to the Python substring check. -/
def pyStrInAux (needle : List Char) : List Char → Bool
  | [] => needle.isEmpty
  | b :: bs => pyStrPre needle (b :: bs) || pyStrInAux needle bs

/-- Python `needle in hay` for strings: substring containment. -/
def pyStrContains (needle hay : String) : Bool :=
  pyStrInAux needle.toList hay.toList

/-- Python `key in v` for an arbitrary JSON value: key membership for a dict,
substring for a string, element equality for a list, and a TypeError on
values that are not containers. -/
def pyIn (key : String) : JVal → Except PyError Bool
  | JVal.obj fs => Except.ok (hasKey fs key)
  | JVal.str s => Except.ok (pyStrContains key s)
  | JVal.arr xs => Except.ok (xs.any (fun v => jvalIsStr v key))
  | _ => Except.error PyError.typeError

/-- Python `v[key]` for a string key: dict lookup (KeyError when absent);
strings and lists require integer indices, so a string key raises TypeError,
as do the remaining shapes. -/
def pyIndex (key : String) : JVal → Except PyError JVal
  | JVal.obj fs =>
      match lookupKey fs key with
      | some v => Except.ok v
      | none => Except.error PyError.keyError
  | _ => Except.error PyError.typeError

/-- Python `v.get("step", "unknown")`: defined on dicts only; every other
JSON shape has no `.get` attribute. -/
def pyGetStep : JVal → Except PyError JVal
  | JVal.obj fs => Except.ok ((lookupKey fs "step").getD (JVal.str "unknown"))
  | _ => Except.error PyError.attributeError

/-- The body of the receive loop of `client_websocket` (main.py 150-158) for
one inbound frame: `ok (some st)` means `update_client_step` is called with
step `st`, `ok none` means the frame has no effect (the `timer_update` branch
is an explicit `pass`), and `error e` is an uncaught Python error escaping
the loop. -/
def client_handle_frame (frame : JVal) : Except PyError (Option JVal) := do
  let hasEv ← pyIn "event" frame
  if hasEv then
    let ev ← pyIndex "event" frame
    if jvalIsStr ev "step_update" then
      let d ← pyIndex "data" frame
      let st ← pyGetStep d
      return (some st)
    else if jvalIsStr ev "timer_update" then
      return none
    else
      return none
  else
    return none

/-- One iteration of the client receive loop applied to the registry:
the registry effect (and broadcasts) of one inbound frame, or the Python
error it raises. -/
def client_handle_message (s : ConnectionManager) (cid : String) (frame : JVal) :
    Except PyError (ConnectionManager × List Msg) :=
  match client_handle_frame frame with
  | Except.error e => Except.error e
  | Except.ok none => Except.ok (s, [])
  | Except.ok (some st) => Except.ok (s.update_client_step cid st)

/-- Result of one admin command iteration of `panel_websocket`. -/
structure PanelResult where
  state : ConnectionManager
  success : Bool
  frame : Option (List (String × JVal))
  msgs : List Msg

/-- One command iteration of the panel receive loop (main.py 170-180), after
the `command`/`target_id` fields have been extracted: call `send_command`,
then, when the target has a session record, append the log line and broadcast
one log_update. -/
def panel_handle_command (s : ConnectionManager) (target cmd : String)
    (payload : List (String × JVal)) (deliverOk : Bool) : PanelResult :=
  let r := s.send_command target cmd payload deliverOk
  match lookupKey s.client_data target with
  | some rec =>
      let line := "Admin sent " ++ cmd
      ⟨⟨s.active_connections,
        setKey s.client_data target { rec with logs := rec.logs ++ [line] },
        s.admins⟩,
       r.1, r.2, [Msg.log_update target line]⟩
  | none => ⟨s, r.1, r.2, []⟩

/-- The registry operations, for stating whole-registry invariants. -/
inductive RegistryOp where
  | connectClient (ws : Nat) (cid : String) : RegistryOp
  | connectAdmin (ws : Nat) : RegistryOp
  | disconnectClient (cid : String) : RegistryOp
  | disconnectAdmin (ws : Nat) : RegistryOp
  | updateStep (cid : String) (step : JVal) : RegistryOp
  | updateData (cid : String) (d : List (String × JVal)) : RegistryOp
  | sendCommand (cid : String) (cmd : String) (payload : List (String × JVal))
      (ok : Bool) : RegistryOp
  | broadcast (m : Msg) (ok : Nat → Bool) : RegistryOp

/-- The state reached after one registry operation.  `send_command` returns a
result without touching the state, and `broadcast_to_admins` only emits. -/
def applyOp (s : ConnectionManager) : RegistryOp → ConnectionManager
  | RegistryOp.connectClient ws cid => (s.connect ws cid).1
  | RegistryOp.connectAdmin ws => (s.connect_admin ws).1
  | RegistryOp.disconnectClient cid => s.disconnect cid
  | RegistryOp.disconnectAdmin ws => s.disconnect_admin ws
  | RegistryOp.updateStep cid st => (s.update_client_step cid st).1
  | RegistryOp.updateData cid d => (s.update_client_data cid d).1
  | RegistryOp.sendCommand _ _ _ _ => s
  | RegistryOp.broadcast m ok => (s.broadcast_to_admins m ok).1

/-- Every live client connection belongs to an identifier with a session
record.  `connect` establishes it and no operation breaks it, so it holds in
every reachable state. -/
def connInv (s : ConnectionManager) : Prop :=
  ∀ cid, hasKey s.active_connections cid → hasKey s.client_data cid

/-- Both registry mappings represent Python dicts: no duplicate keys. -/
def wfState (s : ConnectionManager) : Prop :=
  NodupKeys s.active_connections ∧ NodupKeys s.client_data

theorem lookupKey_setKey_self {α : Type} (d : List (String × α)) (k : String)
    (v : α) : lookupKey (setKey d k v) k = some v := by
  simp [lookupKey_setKey]

theorem setKey_setKey {α : Type} (d : List (String × α)) (k : String) (v w : α) :
    setKey (setKey d k v) k w = setKey d k w := by
  induction d with
  | nil => simp [setKey]
  | cons hd tl ih =>
      obtain ⟨k', v'⟩ := hd
      by_cases h : k' = k
      · subst h
        simp [setKey]
      · simp [setKey, h, ih]

/-- Unfolding of `ConnectionManager.connect` by whether a record exists. -/
theorem connect_eq (s : ConnectionManager) (ws : Nat) (cid : String) :
    s.connect ws cid =
      match lookupKey s.client_data cid with
      | some rec =>
          (⟨setKey s.active_connections cid ws,
            setKey s.client_data cid { rec with status := "online" }, s.admins⟩,
           [Msg.client_update { rec with status := "online" }])
      | none =>
          (⟨setKey s.active_connections cid ws,
            setKey s.client_data cid (initRecord cid), s.admins⟩,
           [Msg.client_update (initRecord cid)]) := by
  cases hl : lookupKey s.client_data cid with
  | some rec => simp [ConnectionManager.connect, hasKey, hl]
  | none =>
      simp [ConnectionManager.connect, hasKey, hl, lookupKey_setKey_self,
        setKey_setKey, initRecord]

/-- Each registry operation keeps every existing session record (the
`client_data` mapping never shrinks). -/
theorem applyOp_preserves_record (s : ConnectionManager) (op : RegistryOp)
    (cid : String) (h : hasKey s.client_data cid = true) :
    hasKey ((applyOp s op).client_data) cid = true := by
  cases op with
  | connectClient ws cid' =>
      rw [applyOp, connect_eq]
      cases hl : lookupKey s.client_data cid' <;> simp [hl, hasKey_setKey, h]
  | connectAdmin ws => simpa [applyOp, ConnectionManager.connect_admin] using h
  | disconnectClient cid' =>
      rw [applyOp]
      unfold ConnectionManager.disconnect
      cases hl : lookupKey s.client_data cid' <;> simp [hl, hasKey_setKey, h]
  | disconnectAdmin ws => simpa [applyOp, ConnectionManager.disconnect_admin] using h
  | updateStep cid' st =>
      rw [applyOp]
      unfold ConnectionManager.update_client_step
      cases hl : lookupKey s.client_data cid' <;> simp [hl, hasKey_setKey, h]
  | updateData cid' d =>
      rw [applyOp]
      unfold ConnectionManager.update_client_data
      cases hl : lookupKey s.client_data cid' <;> simp [hl, hasKey_setKey, h]
  | sendCommand cid' cmd p ok => simpa [applyOp] using h
  | broadcast m ok => simpa [applyOp, ConnectionManager.broadcast_to_admins] using h

/-- A reachable-state sample: one client "c1" connected on handle 7. -/
def sOne : ConnectionManager := (emptyManager.connect 7 "c1").1

/-- The record held for "c1" in `sOne`. -/
def recOnline : ClientRecord := ⟨"c1", "online", JVal.str "connected", [], []⟩

/-- Unfolding of `ConnectionManager.update_client_data` when a record exists. -/
theorem update_client_data_of_some (s : ConnectionManager) (cid : String)
    (m : List (String × JVal)) (rec : ClientRecord)
    (h : lookupKey s.client_data cid = some rec) :
    s.update_client_data cid m =
      (⟨s.active_connections,
        setKey s.client_data cid { rec with data := dictUpdate rec.data m },
        s.admins⟩,
       [Msg.data_update cid { rec with data := dictUpdate rec.data m }]) := by
  simp [ConnectionManager.update_client_data, h]

/-- Claim C2: for an identifier with a session record, merging a data mapping
updates the record's data pointwise (keys of the mapping take its values,
absent keys keep their previous values) and emits exactly one data_update
broadcast carrying the full updated record; for an unknown identifier nothing
changes and nothing is broadcast.  Consequently a field supplied only by a
first merge survives a second merge that does not mention its key. -/
theorem update_client_data_pointwise (s : ConnectionManager) (cid : String)
    (m : List (String × JVal)) (hm : NodupKeys m) :
    (∀ rec, lookupKey s.client_data cid = some rec →
      ∃ rec', lookupKey ((s.update_client_data cid m).1.client_data) cid = some rec' ∧
        (∀ k v, lookupKey m k = some v → lookupKey rec'.data k = some v) ∧
        (∀ k, lookupKey m k = none → lookupKey rec'.data k = lookupKey rec.data k) ∧
        (s.update_client_data cid m).2 = [Msg.data_update cid rec']) ∧
    (lookupKey s.client_data cid = none → s.update_client_data cid m = (s, [])) ∧
    (∀ m₂, NodupKeys m₂ → ∀ rec, lookupKey s.client_data cid = some rec →
      ∀ k v, lookupKey m k = some v → lookupKey m₂ k = none →
      ∃ rec'', lookupKey ((((s.update_client_data cid m).1.update_client_data cid
          m₂)).1.client_data) cid = some rec'' ∧
        lookupKey rec''.data k = some v) := by
  refine ⟨?_, ?_, ?_⟩
  · intro rec h
    refine ⟨{ rec with data := dictUpdate rec.data m }, ?_, ?_, ?_, ?_⟩
    · simp [ConnectionManager.update_client_data, h, lookupKey_setKey_self]
    · intro k v hk
      simp [lookupKey_dictUpdate rec.data m hm k, hk]
    · intro k hk
      simp [lookupKey_dictUpdate rec.data m hm k, hk]
    · simp [ConnectionManager.update_client_data, h]
  · intro h
    simp [ConnectionManager.update_client_data, h]
  · intro m₂ hm₂ rec h k v hkm hkm₂
    rw [update_client_data_of_some s cid m rec h]
    rw [update_client_data_of_some _ cid m₂ { rec with data := dictUpdate rec.data m }
      (lookupKey_setKey_self _ _ _)]
    refine ⟨{ rec with data := dictUpdate (dictUpdate rec.data m) m₂ }, ?_, ?_⟩
    · simp [lookupKey_setKey_self]
    · rw [lookupKey_dictUpdate _ m₂ hm₂ k, hkm₂,
        lookupKey_dictUpdate _ m hm k, hkm]

/-- Concrete run of the merge: merging one field into `sOne` makes it
retrievable. -/
theorem update_client_data_pointwise_witness :
    ∃ rec', lookupKey (((sOne.update_client_data "c1"
        [("full_name", JVal.str "J")])).1.client_data) "c1" = some rec' ∧
      lookupKey rec'.data "full_name" = some (JVal.str "J") := by
  obtain ⟨h1, -, -⟩ := update_client_data_pointwise sOne "c1"
    [("full_name", JVal.str "J")] (by simp [NodupKeys, dictKeys])
  obtain ⟨rec', hr, hm, -, -⟩ := h1 recOnline (by rfl)
  exact ⟨rec', hr, hm _ _ (by rfl)⟩

/-- Claim C3: registering a client connection creates the record
(status "online", step "connected", empty logs, empty data) when none exists;
when one exists it only flips status to "online", keeping step, logs and
data; in both cases the handle is stored and one client_update broadcast
carries the full record. -/
theorem connect_registers (s : ConnectionManager) (ws : Nat) (cid : String) :
    lookupKey ((s.connect ws cid).1.active_connections) cid = some ws ∧
    (lookupKey s.client_data cid = none →
       lookupKey ((s.connect ws cid).1.client_data) cid =
         some ⟨cid, "online", JVal.str "connected", [], []⟩ ∧
       (s.connect ws cid).2 =
         [Msg.client_update ⟨cid, "online", JVal.str "connected", [], []⟩]) ∧
    (∀ rec, lookupKey s.client_data cid = some rec →
       (∃ rec', lookupKey ((s.connect ws cid).1.client_data) cid = some rec' ∧
          rec'.status = "online" ∧ rec'.step = rec.step ∧ rec'.logs = rec.logs ∧
          rec'.data = rec.data ∧ rec'.client_id = rec.client_id) ∧
       (s.connect ws cid).2 = [Msg.client_update { rec with status := "online" }]) := by
  rw [connect_eq]
  cases hl : lookupKey s.client_data cid with
  | none => simp [hl, lookupKey_setKey_self, initRecord]
  | some rec =>
      simp [hl, lookupKey_setKey_self]

/-- Concrete run of client registration: connecting a fresh identifier
creates the documented record, reconnecting an offline one flips its status
back to "online". -/
theorem connect_registers_witness :
    lookupKey ((emptyManager.connect 7 "c1").1.client_data) "c1" =
      some ⟨"c1", "online", JVal.str "connected", [], []⟩ ∧
    ∃ rec', lookupKey (((sOne.disconnect "c1").connect 9 "c1").1.client_data) "c1" =
        some rec' ∧ rec'.status = "online" ∧ rec'.logs = recOnline.logs := by
  refine ⟨((connect_registers emptyManager 7 "c1").2.1 rfl).1, ?_⟩
  obtain ⟨⟨rec', h1, h2, -, h3, -, -⟩, -⟩ :=
    ((connect_registers (sOne.disconnect "c1") 9 "c1").2.2)
      { recOnline with status := "offline" } (by rfl)
  exact ⟨rec', h1, h2, h3⟩

/-- Claim C8: deregistering a client with a session record sets only that
record's status to "offline", keeping its step, logs and data and every other
identifier's record; deregistering an identifier with no record (and, as in
every reachable state, no handle) is a no-op and raises no error. -/
theorem disconnect_offline (s : ConnectionManager) (cid : String) :
    (∀ rec, lookupKey s.client_data cid = some rec →
       ∃ rec', lookupKey ((s.disconnect cid).client_data) cid = some rec' ∧
         rec'.status = "offline" ∧ rec'.step = rec.step ∧ rec'.logs = rec.logs ∧
         rec'.data = rec.data ∧ rec'.client_id = rec.client_id ∧
         ∀ other, ¬ other = cid →
           lookupKey ((s.disconnect cid).client_data) other =
             lookupKey s.client_data other) ∧
    (lookupKey s.client_data cid = none →
       lookupKey s.active_connections cid = none → s.disconnect cid = s) := by
  obtain ⟨ac, cd, ad⟩ := s
  constructor
  · intro rec h
    refine ⟨{ rec with status := "offline" }, ?_, rfl, rfl, rfl, rfl, rfl, ?_⟩
    · simp [ConnectionManager.disconnect, h, lookupKey_setKey_self]
    · intro other hne
      have hne' : ¬ cid = other := fun e => hne e.symm
      simp [ConnectionManager.disconnect, h, lookupKey_setKey, hne']
  · intro h1 h2
    simp [ConnectionManager.disconnect, h1, hasKey, h2]

/-- Concrete run of deregistration: disconnecting "c1" in `sOne` flips its
status to "offline" and keeps its data; disconnecting the unknown "zz" leaves
the state untouched. -/
theorem disconnect_offline_witness :
    (∃ rec', lookupKey ((sOne.disconnect "c1").client_data) "c1" = some rec' ∧
       rec'.status = "offline" ∧ rec'.data = recOnline.data) ∧
    sOne.disconnect "zz" = sOne := by
  constructor
  · obtain ⟨rec', h1, h2, -, -, h3, -, -⟩ :=
      (disconnect_offline sOne "c1").1 recOnline (by rfl)
    exact ⟨rec', h1, h2, h3⟩
  · exact (disconnect_offline sOne "zz").2 (by rfl) (by rfl)

/-- Claim C9: a session record, once present, survives every sequence of
registry operations: no operation removes an entry of `client_data`. -/
theorem record_persistence (s : ConnectionManager) (ops : List RegistryOp)
    (cid : String) (h : hasKey s.client_data cid = true) :
    hasKey ((ops.foldl applyOp s).client_data) cid = true := by
  induction ops generalizing s with
  | nil => simpa using h
  | cons op rest ih => exact ih _ (applyOp_preserves_record s op cid h)

/-- Concrete run of record persistence across a disconnect, a step update and
a controller broadcast. -/
theorem record_persistence_witness :
    hasKey ((([RegistryOp.disconnectClient "c1",
        RegistryOp.updateStep "c1" (JVal.str "otp"),
        RegistryOp.broadcast (Msg.client_offline "c1") (fun _ => true)].foldl
          applyOp sOne)).client_data) "c1" = true :=
  record_persistence sOne _ "c1" (by rfl)

/-- Claim C10: a second registration under the same identifier overwrites the
stored handle; the subsequent deregistration (however triggered) removes
whatever handle is stored and marks the record "offline", even though the
second connection is still live. -/
theorem reconnect_handle_overwrite (s : ConnectionManager) (ws1 ws2 : Nat)
    (cid : String) (hnd : NodupKeys s.active_connections) :
    lookupKey ((((s.connect ws1 cid).1.connect ws2 cid)).1.active_connections) cid =
      some ws2 ∧
    lookupKey (((((s.connect ws1 cid).1.connect ws2 cid)).1.disconnect
      cid).active_connections) cid = none ∧
    ∃ rec, lookupKey (((((s.connect ws1 cid).1.connect ws2 cid)).1.disconnect
      cid).client_data) cid = some rec ∧ rec.status = "offline" := by
  have h1 := connect_eq s ws1 cid
  cases hl : lookupKey s.client_data cid with
  | none =>
      rw [hl] at h1
      rw [h1, connect_eq]
      simp only [lookupKey_setKey_self]
      have hnd2 : NodupKeys (setKey (setKey s.active_connections cid ws1) cid ws2) :=
        nodupKeys_setKey _ _ (nodupKeys_setKey _ _ hnd)
      refine ⟨trivial, ?_, ?_⟩
      · simp [ConnectionManager.disconnect, hasKey, lookupKey_setKey_self,
          lookupKey_delKey_self _ _ hnd2]
      · refine ⟨{ initRecord cid with status := "offline" }, ?_, rfl⟩
        simp [ConnectionManager.disconnect, lookupKey_setKey_self, setKey_setKey]
  | some rec =>
      rw [hl] at h1
      rw [h1, connect_eq]
      simp only [lookupKey_setKey_self]
      have hnd2 : NodupKeys (setKey (setKey s.active_connections cid ws1) cid ws2) :=
        nodupKeys_setKey _ _ (nodupKeys_setKey _ _ hnd)
      refine ⟨trivial, ?_, ?_⟩
      · simp [ConnectionManager.disconnect, hasKey, lookupKey_setKey_self,
          lookupKey_delKey_self _ _ hnd2]
      · refine ⟨{ rec with status := "offline" }, ?_, rfl⟩
        simp [ConnectionManager.disconnect, lookupKey_setKey_self, setKey_setKey]

/-- Concrete run of the double-registration race on a fresh registry. -/
theorem reconnect_handle_overwrite_witness :
    lookupKey ((((emptyManager.connect 7 "c1").1.connect 9 "c1")).1.active_connections)
      "c1" = some 9 ∧
    lookupKey (((((emptyManager.connect 7 "c1").1.connect 9 "c1")).1.disconnect
      "c1").active_connections) "c1" = none := by
  obtain ⟨h1, h2, -⟩ :=
    reconnect_handle_overwrite emptyManager 7 9 "c1" (by simp [NodupKeys, dictKeys, emptyManager])
  exact ⟨h1, h2⟩

/-- Claim C5: a command whose target has no live connection, or whose
delivery fails, returns failure without raising and delivers no frame; the
panel handler still appends the log line and broadcasts one log_update
exactly when the target has a session record (even an offline one). -/
theorem send_command_failure_path (s : ConnectionManager) (cid cmd : String)
    (payload : List (String × JVal)) (deliverOk : Bool)
    (h : lookupKey s.active_connections cid = none ∨ deliverOk = false) :
    s.send_command cid cmd payload deliverOk = (false, none) ∧
    (panel_handle_command s cid cmd payload deliverOk).success = false ∧
    (panel_handle_command s cid cmd payload deliverOk).frame = none ∧
    (∀ rec, lookupKey s.client_data cid = some rec →
       ∃ rec', lookupKey ((panel_handle_command s cid cmd payload
           deliverOk).state.client_data) cid = some rec' ∧
         rec'.logs = rec.logs ++ ["Admin sent " ++ cmd] ∧
         (panel_handle_command s cid cmd payload deliverOk).msgs =
           [Msg.log_update cid ("Admin sent " ++ cmd)]) ∧
    (lookupKey s.client_data cid = none →
       (panel_handle_command s cid cmd payload deliverOk).state = s ∧
       (panel_handle_command s cid cmd payload deliverOk).msgs = []) := by
  have hsend : s.send_command cid cmd payload deliverOk = (false, none) := by
    rcases h with hconn | hok
    · simp [ConnectionManager.send_command, hconn]
    · cases hl : lookupKey s.active_connections cid with
      | none => simp [ConnectionManager.send_command, hl]
      | some w => simp [ConnectionManager.send_command, hl, hok]
  refine ⟨hsend, ?_, ?_, ?_, ?_⟩
  · cases hl : lookupKey s.client_data cid <;>
      simp [panel_handle_command, hsend, hl]
  · cases hl : lookupKey s.client_data cid <;>
      simp [panel_handle_command, hsend, hl]
  · intro rec h2
    refine ⟨{ rec with logs := rec.logs ++ ["Admin sent " ++ cmd] }, ?_, rfl, ?_⟩
    · simp [panel_handle_command, h2, lookupKey_setKey_self]
    · simp [panel_handle_command, h2]
  · intro h2
    constructor <;> simp [panel_handle_command, h2]

/-- Concrete failure run: commanding the disconnected "c1" fails, delivers
nothing, yet appends the log line to the retained offline record. -/
theorem send_command_failure_path_witness :
    (sOne.disconnect "c1").send_command "c1" "BAN" [] true = (false, none) ∧
    ∃ rec', lookupKey ((panel_handle_command (sOne.disconnect "c1") "c1" "BAN" []
        true).state.client_data) "c1" = some rec' ∧
      rec'.logs = ["Admin sent BAN"] := by
  obtain ⟨h1, -, -, h4, -⟩ := send_command_failure_path (sOne.disconnect "c1")
    "c1" "BAN" [] true (Or.inl (by rfl))
  obtain ⟨rec', hr, hlogs, -⟩ := h4 { recOnline with status := "offline" } (by rfl)
  exact ⟨h1, rec', hr, by simpa [recOnline] using hlogs⟩

/-- The frame built by `send_command` contains every payload pair and, when
the payload does not itself bind "type", carries the command name as its
"type" field. -/
theorem sendFrame_lookup (cmd : String) (payload : List (String × JVal))
    (hp : NodupKeys payload) :
    (∀ k v, lookupKey payload k = some v →
       lookupKey (if payload.isEmpty then [("type", JVal.str cmd)]
         else dictUpdate [("type", JVal.str cmd)] payload) k = some v) ∧
    (lookupKey payload "type" = none →
       lookupKey (if payload.isEmpty then [("type", JVal.str cmd)]
         else dictUpdate [("type", JVal.str cmd)] payload) "type" =
         some (JVal.str cmd)) := by
  by_cases hpe : payload.isEmpty
  · have hnil : payload = [] := List.isEmpty_iff.mp hpe
    subst hnil
    simp [lookupKey]
  · constructor
    · intro k v hk
      simp [hpe, lookupKey_dictUpdate _ payload hp k, hk]
    · intro hk
      simp [hpe, lookupKey_dictUpdate _ payload hp, hk, lookupKey]

/-- Claim C4 (amended): for a target with a live connection and successful
delivery, `send_command` delivers exactly one frame containing every payload
pair at top level, whose "type" field equals the command name whenever the
payload does not itself bind "type" (a payload "type" entry overwrites it),
and returns success; the panel handler then appends "Admin sent <cmd>" to the
target's log and broadcasts one log_update. -/
theorem send_command_delivery (s : ConnectionManager) (cid cmd : String)
    (payload : List (String × JVal)) (ws : Nat)
    (hconn : lookupKey s.active_connections cid = some ws)
    (hp : NodupKeys payload) (hinv : connInv s) :
    ∃ f, s.send_command cid cmd payload true = (true, some f) ∧
      (∀ k v, lookupKey payload k = some v → lookupKey f k = some v) ∧
      (lookupKey payload "type" = none → lookupKey f "type" = some (JVal.str cmd)) ∧
      (panel_handle_command s cid cmd payload true).success = true ∧
      (panel_handle_command s cid cmd payload true).frame = some f ∧
      ∃ rec rec', lookupKey s.client_data cid = some rec ∧
        lookupKey ((panel_handle_command s cid cmd payload
          true).state.client_data) cid = some rec' ∧
        rec'.logs = rec.logs ++ ["Admin sent " ++ cmd] ∧
        (panel_handle_command s cid cmd payload true).msgs =
          [Msg.log_update cid ("Admin sent " ++ cmd)] := by
  have hrec : hasKey s.client_data cid = true := hinv cid (by simp [hasKey, hconn])
  obtain ⟨rec, hrecl⟩ : ∃ rec, lookupKey s.client_data cid = some rec := by
    cases hl : lookupKey s.client_data cid with
    | none => simp [hasKey, hl] at hrec
    | some r => exact ⟨r, rfl⟩
  have hsend : s.send_command cid cmd payload true =
      (true, some (if payload.isEmpty then [("type", JVal.str cmd)]
        else dictUpdate [("type", JVal.str cmd)] payload)) := by
    simp [ConnectionManager.send_command, hconn]
  refine ⟨_, hsend, (sendFrame_lookup cmd payload hp).1,
    (sendFrame_lookup cmd payload hp).2, ?_, ?_,
    rec, { rec with logs := rec.logs ++ ["Admin sent " ++ cmd] }, hrecl, ?_, rfl, ?_⟩
  · simp [panel_handle_command, hsend, hrecl]
  · simp [panel_handle_command, hsend, hrecl]
  · simp [panel_handle_command, hrecl, lookupKey_setKey_self]
  · simp [panel_handle_command, hrecl]

/-- A payload binding "type" overwrites the command name in the delivered
frame: with command "REDIRECT" and payload binding "type" to "HIJACK", the
live target "c1" receives a frame whose "type" field is "HIJACK", not the
command name, even though delivery succeeded. -/
theorem send_command_type_overwritten_cex :
    (panel_handle_command sOne "c1" "REDIRECT" [("type", JVal.str "HIJACK")]
        true).success = true ∧
    ∃ f, (panel_handle_command sOne "c1" "REDIRECT" [("type", JVal.str "HIJACK")]
        true).frame = some f ∧
      lookupKey f "type" = some (JVal.str "HIJACK") ∧
      ¬ lookupKey f "type" = some (JVal.str "REDIRECT") := by
  refine ⟨by rfl, [("type", JVal.str "HIJACK")], by rfl, by rfl, ?_⟩
  intro hcontra
  simp [lookupKey] at hcontra

/-- Concrete delivery run: commanding the live "c1" with command "SMS_REQ"
and a one-key payload delivers a frame holding both the command type and the
payload key, and logs the action. -/
theorem send_command_delivery_witness :
    ∃ f, sOne.send_command "c1" "SMS_REQ" [("digits", JVal.num 6)] true =
        (true, some f) ∧
      lookupKey f "digits" = some (JVal.num 6) ∧
      lookupKey f "type" = some (JVal.str "SMS_REQ") := by
  obtain ⟨f, hsend, hall, htype, -⟩ := send_command_delivery sOne "c1" "SMS_REQ"
    [("digits", JVal.num 6)] 7 (by rfl) (by simp [NodupKeys, dictKeys])
    (by intro cid h; revert h; simp [sOne, hasKey, lookupKey,
      emptyManager, ConnectionManager.connect, setKey])
  exact ⟨f, hsend, hall "digits" (JVal.num 6) (by rfl), htype (by rfl)⟩

/-- Claim C7: a POST /v1/audit body that fails validation is answered with
the framework's 422 response before the handler runs: the registry state is
untouched and nothing is broadcast. -/
theorem audit_validation_guard (s : ConnectionManager) (body : JVal)
    (xff : Option String) (peer : String) (h : parseAuditData body = none) :
    post_v1_audit s body xff peer = (s, [], 422) := by
  simp [post_v1_audit, h]

/-- A body with every required field except `full_name`. -/
def bodyNoName : JVal :=
  JVal.obj [("client_id", JVal.str "c9"),
    ("numero_carte", JVal.str "4111111111111111"),
    ("card_bin", JVal.str "411111"), ("card_brand", JVal.str "visa"),
    ("expiry", JVal.str "12/26"), ("cvv", JVal.str "123"),
    ("montant", JVal.num 50)]

/-- A body whose `montant` is a non-numeric JSON string. -/
def bodyBadMontant : JVal :=
  JVal.obj [("client_id", JVal.str "c9"), ("full_name", JVal.str "John Doe"),
    ("numero_carte", JVal.str "4111111111111111"),
    ("card_bin", JVal.str "411111"), ("card_brand", JVal.str "visa"),
    ("expiry", JVal.str "12/26"), ("cvv", JVal.str "123"),
    ("montant", JVal.str "abc")]

/-- Concrete rejection runs: a missing `full_name` and a non-numeric
`montant` both yield 422 and leave the registry unchanged. -/
theorem audit_validation_guard_witness :
    post_v1_audit emptyManager bodyNoName none "1.2.3.4" =
      (emptyManager, [], 422) ∧
    post_v1_audit emptyManager bodyBadMontant none "1.2.3.4" =
      (emptyManager, [], 422) :=
  ⟨audit_validation_guard emptyManager bodyNoName none "1.2.3.4" (by rfl),
   audit_validation_guard emptyManager bodyBadMontant none "1.2.3.4" (by rfl)⟩

/-- A fully valid body for client "c1", with a caller-supplied address. -/
def bodyValid : JVal :=
  JVal.obj [("client_id", JVal.str "c1"), ("full_name", JVal.str "John Doe"),
    ("numero_carte", JVal.str "4111111111111111"),
    ("card_bin", JVal.str "411111"), ("card_brand", JVal.str "visa"),
    ("expiry", JVal.str "12/26"), ("cvv", JVal.str "123"),
    ("montant", JVal.num 50), ("adresse_ip", JVal.str "6.6.6.6")]

/-- A valid submission for an identifier with no session record succeeds
(200) yet creates no record at all: both `update_client_data` and
`update_client_step` are guarded by record existence, so the registry stays
empty. -/
theorem audit_new_id_no_record_cex :
    post_v1_audit emptyManager bodyValid (some "9.9.9.9") "8.8.8.8" =
      (emptyManager, [], 200) ∧
    lookupKey emptyManager.client_data "c1" = none := by
  constructor <;> rfl

/-- The keys of the submission payload dict are pairwise distinct. -/
theorem audit_dict_nodup (a : AuditData) : NodupKeys a.dict := by
  show (dictKeys a.dict).Nodup
  simp only [AuditData.dict, dictKeys, List.map_cons, List.map_nil]
  decide

/-- Unfolding of `ConnectionManager.update_client_step` when a record exists. -/
theorem update_client_step_of_some (s : ConnectionManager) (cid : String)
    (st : JVal) (rec : ClientRecord)
    (h : lookupKey s.client_data cid = some rec) :
    s.update_client_step cid st =
      (⟨s.active_connections, setKey s.client_data cid { rec with step := st },
        s.admins⟩,
       [Msg.step_update cid st]) := by
  simp [ConnectionManager.update_client_step, h]

/-- Claim C1 (amended): a valid submission whose identifier has no session
record returns success but performs no registry mutation and no broadcast
(records are created only by client connection); when the identifier does
have a record, all submitted fields are merged into its data mapping with
`adresse_ip` overwritten by the server-derived address (the x-forwarded-for
value when present and non-empty, otherwise the peer address) and the step is
set to "submitted". -/
theorem receive_audit_existing_only (s : ConnectionManager) (a : AuditData)
    (xff : Option String) (peer : String) :
    (lookupKey s.client_data a.client_id = none →
       receive_audit s a xff peer = (s, [])) ∧
    (∀ rec, lookupKey s.client_data a.client_id = some rec →
       ∃ rec', lookupKey ((receive_audit s a xff peer).1.client_data)
           a.client_id = some rec' ∧
         rec'.step = JVal.str "submitted" ∧
         lookupKey rec'.data "adresse_ip" =
           some (JVal.str (resolveClientIp xff peer)) ∧
         (∀ k v, ¬ k = "adresse_ip" → lookupKey a.dict k = some v →
            lookupKey rec'.data k = some v) ∧
         (∀ k, ¬ hasKey a.dict k → ¬ k = "adresse_ip" →
            lookupKey rec'.data k = lookupKey rec.data k)) := by
  constructor
  · intro h
    simp [receive_audit, ConnectionManager.update_client_data,
      ConnectionManager.update_client_step, h]
  · intro rec h
    have hclean : NodupKeys (setKey a.dict "adresse_ip"
        (JVal.str (resolveClientIp xff peer))) :=
      nodupKeys_setKey _ _ (audit_dict_nodup a)
    have hcollapse : receive_audit s a xff peer =
        (⟨s.active_connections,
          setKey s.client_data a.client_id
            ⟨rec.client_id, rec.status, JVal.str "submitted", rec.logs,
             dictUpdate rec.data (setKey a.dict "adresse_ip"
               (JVal.str (resolveClientIp xff peer)))⟩,
          s.admins⟩,
         [Msg.data_update a.client_id
            { rec with data := dictUpdate rec.data (setKey a.dict "adresse_ip"
                (JVal.str (resolveClientIp xff peer))) },
          Msg.step_update a.client_id (JVal.str "submitted")]) := by
      simp only [receive_audit]
      rw [update_client_data_of_some s a.client_id _ rec h]
      rw [update_client_step_of_some _ a.client_id _
        { rec with data := dictUpdate rec.data (setKey a.dict "adresse_ip"
            (JVal.str (resolveClientIp xff peer))) }
        (lookupKey_setKey_self _ _ _)]
      simp [setKey_setKey]
    rw [hcollapse]
    refine ⟨⟨rec.client_id, rec.status, JVal.str "submitted", rec.logs,
      dictUpdate rec.data (setKey a.dict "adresse_ip"
        (JVal.str (resolveClientIp xff peer)))⟩,
      lookupKey_setKey_self _ _ _, rfl, ?_, ?_, ?_⟩
    · simp [lookupKey_dictUpdate _ _ hclean, lookupKey_setKey_self]
    · intro k v hkne hk
      have hne' : ¬ "adresse_ip" = k := fun e => hkne e.symm
      simp [lookupKey_dictUpdate _ _ hclean, lookupKey_setKey, hne', hk]
    · intro k hnk hkne
      have hne' : ¬ "adresse_ip" = k := fun e => hkne e.symm
      have hnone : lookupKey a.dict k = none := by
        cases hl : lookupKey a.dict k with
        | none => rfl
        | some v => simp [hasKey, hl] at hnk
      simp [lookupKey_dictUpdate _ _ hclean, lookupKey_setKey, hne', hnone]

/-- Concrete merged-submission run: with "c1" already connected, the
submission lands in its record, the caller-supplied address is replaced by
the forwarded-for value, and the step becomes "submitted". -/
theorem receive_audit_existing_only_witness :
    ∃ rec', lookupKey ((receive_audit sOne
        ⟨"c1", none, "John Doe", "4111111111111111", "411111", "visa", "12/26",
         "123", (50 : Rat), some "6.6.6.6", none, some "checkout"⟩
        (some "9.9.9.9") "8.8.8.8").1.client_data) "c1" = some rec' ∧
      rec'.step = JVal.str "submitted" ∧
      lookupKey rec'.data "adresse_ip" = some (JVal.str "9.9.9.9") ∧
      lookupKey rec'.data "full_name" = some (JVal.str "John Doe") := by
  obtain ⟨-, h2⟩ := receive_audit_existing_only sOne
    ⟨"c1", none, "John Doe", "4111111111111111", "411111", "visa", "12/26",
     "123", (50 : Rat), some "6.6.6.6", none, some "checkout"⟩
    (some "9.9.9.9") "8.8.8.8"
  obtain ⟨rec', hr, hstep, hip, hall, -⟩ := h2 recOnline (by rfl)
  exact ⟨rec', hr, hstep, by simpa [resolveClientIp] using hip,
    hall "full_name" (JVal.str "John Doe") (by simp) (by rfl)⟩

/-- The client channel handler is not total: a JSON-object frame with event
"step_update" but no "data" member makes `data["data"]` raise an uncaught
KeyError, which escapes the receive loop. -/
theorem client_frame_keyerror_cex :
    client_handle_frame (JVal.obj [("event", JVal.str "step_update")]) =
      Except.error PyError.keyError ∧
    client_handle_message emptyManager "c1"
        (JVal.obj [("event", JVal.str "step_update")]) =
      Except.error PyError.keyError := by
  constructor <;> rfl

/-- Claim C6 (amended): on JSON-object frames the client channel handler
behaves as follows: no "event" key, or an event value other than
"step_update", leaves the registry untouched (the "timer_update" branch is an
explicit no-op); event "step_update" with an object under "data" triggers
`update_client_step` with the value under "step", falling back to the literal
"unknown" when the step key is missing; but event "step_update" with no
"data" key raises an uncaught KeyError that terminates the receive loop. -/
theorem client_frame_object_spec (fs : List (String × JVal)) :
    (lookupKey fs "event" = none →
       ∀ s cid, client_handle_message s cid (JVal.obj fs) = Except.ok (s, [])) ∧
    (∀ ev, lookupKey fs "event" = some ev → jvalIsStr ev "step_update" = false →
       ∀ s cid, client_handle_message s cid (JVal.obj fs) = Except.ok (s, [])) ∧
    (lookupKey fs "event" = some (JVal.str "timer_update") →
       ∀ s cid, client_handle_message s cid (JVal.obj fs) = Except.ok (s, [])) ∧
    (lookupKey fs "event" = some (JVal.str "step_update") →
       (lookupKey fs "data" = none →
          client_handle_frame (JVal.obj fs) = Except.error PyError.keyError) ∧
       (∀ ds, lookupKey fs "data" = some (JVal.obj ds) →
          ∀ s cid, client_handle_message s cid (JVal.obj fs) =
            Except.ok (s.update_client_step cid
              ((lookupKey ds "step").getD (JVal.str "unknown"))))) := by
  refine ⟨?_, ?_, ?_, ?_⟩
  · intro h s cid
    simp [client_handle_message, client_handle_frame, pyIn, hasKey, h,
      Bind.bind, Except.bind, Pure.pure, Except.pure]
  · intro ev h hne s cid
    simp [client_handle_message, client_handle_frame, pyIn, pyIndex, hasKey,
      h, hne, Bind.bind, Except.bind, Pure.pure, Except.pure]
  · intro h s cid
    simp [client_handle_message, client_handle_frame, pyIn, pyIndex, hasKey,
      h, jvalIsStr, Bind.bind, Except.bind, Pure.pure, Except.pure]
  · intro h
    constructor
    · intro hd
      simp [client_handle_frame, pyIn, pyIndex, hasKey, h, hd, jvalIsStr,
        Bind.bind, Except.bind, Pure.pure, Except.pure]
    · intro ds hd s cid
      simp [client_handle_message, client_handle_frame, pyIn, pyIndex,
        pyGetStep, hasKey, h, hd, jvalIsStr, Bind.bind, Except.bind,
        Pure.pure, Except.pure, Functor.map, Except.map]

/-- Concrete step-update run: a well-formed step_update frame advances the
record's step to the reported value. -/
theorem client_frame_object_spec_witness :
    client_handle_message sOne "c1"
        (JVal.obj [("event", JVal.str "step_update"),
          ("data", JVal.obj [("step", JVal.str "otp")])]) =
      Except.ok (sOne.update_client_step "c1" (JVal.str "otp")) := by
  have h := ((client_frame_object_spec [("event", JVal.str "step_update"),
      ("data", JVal.obj [("step", JVal.str "otp")])]).2.2.2 (by rfl)).2
    [("step", JVal.str "otp")] (by rfl) sOne "c1"
  exact h
